import Mathlib

/-!
Shallow embedding of the Device Lifecycle & Command Orchestration Engine of the
Agrismart server: the `DeviceControl` mongoose model (relays, command queue,
control history), the control controller endpoints, and the failsafe
monitoring service (`failsafeService.js`).  Definitions are translated from
the JavaScript source; timestamps are abstract `Nat` minutes, mongoose
subdocument ids are `Nat` ids assigned at enqueue time.
-/

/-- Operating mode of an enhanced relay (`mode` enum AUTO | MANUAL). -/
inductive Mode
  | auto
  | manual
deriving DecidableEq, Repr

/-- Command priority enum (`low | medium | high | critical`). -/
inductive Priority
  | low
  | medium
  | high
  | critical
deriving DecidableEq, Repr

/-- Command status enum (`pending | sent | acknowledged | failed`). -/
inductive CmdStatus
  | pending
  | sent
  | acknowledged
  | failed
deriving DecidableEq, Repr

/-- Control-history trigger enum (`manual | automation | schedule | alert`). -/
inductive Trigger
  | manual
  | automation
  | schedule
  | alert
deriving DecidableEq, Repr

/-- The three enhanced relays handled by the failsafe service and the
mode-switching controller. -/
inductive RelayName
  | waterPump
  | ventilationFan
  | fertilizerPump
deriving DecidableEq, Repr

/-- Severity of an emitted socket event. -/
inductive Severity
  | info
  | warning
  | high
  | critical
deriving DecidableEq, Repr

/-- One relay record of `deviceControlSchema.relays`. -/
structure Relay where
  state : Bool
  mode : Mode
  pin : Nat
  lastToggled : Option Nat := none
deriving DecidableEq, Repr

/-- The `parameters` mixed object attached to a queued command. -/
structure CmdParams where
  relay : Option RelayName := none
  state : Option Bool := none
  mode : Option Mode := none
  pin : Option Nat := none
  esp32Command : Option String := none
deriving DecidableEq, Repr

/-- One entry of `deviceControlSchema.commandQueue`.  Schema defaults:
status `pending`, `retryCount` 0, `maxRetries` 3. -/
structure Command where
  id : Nat
  command : String
  params : CmdParams
  priority : Priority
  status : CmdStatus
  createdAt : Nat
  sentAt : Option Nat := none
  acknowledgedAt : Option Nat := none
  retryCount : Nat := 0
  maxRetries : Nat := 3
  error : Option String := none
deriving DecidableEq, Repr

/-- Value stored in a history entry state field: the source writes booleans
for state changes and mode strings for mode changes into the same field. -/
inductive HVal
  | bool (b : Bool)
  | mode (m : Mode)
deriving DecidableEq, Repr

/-- One entry of `deviceControlSchema.controlHistory`. -/
structure HistoryEntry where
  action : String
  relay : String
  previousState : HVal
  newState : HVal
  triggeredBy : Trigger
  userId : Option Nat := none
  timestamp : Nat
  reason : String
deriving DecidableEq, Repr

/-- A `DeviceControl` document restricted to the fields the claims concern:
the three enhanced relays, the command queue and the control history.
`nextCmdId` models mongoose assigning a fresh subdocument id at push time. -/
structure Device where
  waterPump : Option Relay
  ventilationFan : Option Relay
  fertilizerPump : Option Relay
  commandQueue : List Command
  controlHistory : List HistoryEntry
  nextCmdId : Nat
deriving DecidableEq, Repr

/-- Duck-typed relay lookup `this.relays[relayName]`. -/
def Device.getRelay (d : Device) : RelayName → Option Relay
  | .waterPump => d.waterPump
  | .ventilationFan => d.ventilationFan
  | .fertilizerPump => d.fertilizerPump

/-- Write back one relay record (`this.relays[relayName] = ...`). -/
def Device.setRelayRec (d : Device) : RelayName → Relay → Device
  | .waterPump, r => { d with waterPump := some r }
  | .ventilationFan, r => { d with ventilationFan := some r }
  | .fertilizerPump, r => { d with fertilizerPump := some r }

/-- The string key of a relay in the `relays` map. -/
def relayKey : RelayName → String
  | .waterPump => "waterPump"
  | .ventilationFan => "ventilationFan"
  | .fertilizerPump => "fertilizerPump"

/-- The string form of a mode, as used in ESP32 command payloads. -/
def modeStr : Mode → String
  | .auto => "AUTO"
  | .manual => "MANUAL"

/-- The numeric priority table `{ critical: 4, high: 3, medium: 2, low: 1 }`
of `getPendingCommands`. -/
def priorityOrder : Priority → Nat
  | .low => 1
  | .medium => 2
  | .high => 3
  | .critical => 4

/-- Stable insertion into a list sorted by `priorityOrder` descending: the
inserted command goes before the first command whose priority does not
strictly exceed its own, so earlier-enqueued commands of equal priority
stay first. -/
def insertByPriority (c : Command) : List Command → List Command
  | [] => [c]
  | c2 :: rest =>
    if priorityOrder c2.priority ≤ priorityOrder c.priority then c :: c2 :: rest
    else c2 :: insertByPriority c rest

/-- Stable sort by priority descending, modelling the JavaScript
`Array.prototype.sort` (stable per the ECMAScript spec) with comparator
`priorityOrder[b.priority] - priorityOrder[a.priority]`. -/
def sortByPriorityDesc : List Command → List Command
  | [] => []
  | c :: rest => insertByPriority c (sortByPriorityDesc rest)

/-- Model method `getPendingCommands`: filter the queue to status `pending`
and sort by priority descending (stable). -/
def Device.getPendingCommands (dev : Device) : List Command :=
  sortByPriorityDesc (dev.commandQueue.filter (fun c => decide (c.status = .pending)))

/-- Append a command to `commandQueue` with the schema defaults
(status `pending`, `retryCount` 0, `maxRetries` 3) and a fresh id. -/
def Device.enqueueCommand (d : Device) (cmd : String) (params : CmdParams)
    (priority : Priority) (now : Nat) : Device :=
  { d with
    commandQueue := d.commandQueue ++
      [{ id := d.nextCmdId, command := cmd, params := params, priority := priority,
         status := .pending, createdAt := now }],
    nextCmdId := d.nextCmdId + 1 }

/-- Errors surfaced by the control model methods and controller. -/
inductive CtrlErr
  | relayNotFound
  | modeNotSupported
  | commandNotFound
deriving DecidableEq, Repr

deriving instance DecidableEq for Except

/-- The ESP32 command string generated by `setRelay` for a state change. -/
def esp32StateCommand (r : RelayName) (triggeredBy : Trigger) (state : Bool) : String :=
  match r with
  | .waterPump =>
    if triggeredBy = .manual then
      if state then "WATER:MANUAL:ON" else "WATER:MANUAL:OFF"
    else "WATER:AUTO"
  | .ventilationFan =>
    if triggeredBy = .manual then
      if state then "FAN:MANUAL:ON" else "FAN:MANUAL:OFF"
    else "FAN:AUTO"
  | .fertilizerPump => if state then "FERTILIZER:ON" else "FERTILIZER:OFF"

/-- Model method `setRelay(relayName, state, triggeredBy, userId, reason)`.
If the relay is unknown it throws; if the desired state equals the current
state nothing changes and the document is saved as is; on a change the relay
state is updated, a history entry is pushed and an `esp32_command` is queued
with priority critical when `triggeredBy` is alert, else high. -/
def Device.setRelay (d : Device) (relayName : RelayName) (state : Bool)
    (triggeredBy : Trigger) (userId : Option Nat) (reason : String) (now : Nat) :
    Except CtrlErr Device :=
  match d.getRelay relayName with
  | none => .error .relayNotFound
  | some rel =>
    if rel.state ≠ state then
      let d1 := d.setRelayRec relayName { rel with state := state, lastToggled := some now }
      let d2 : Device := { d1 with controlHistory := d1.controlHistory ++
        [{ action := "set_" ++ relayKey relayName, relay := relayKey relayName,
           previousState := .bool rel.state, newState := .bool state,
           triggeredBy := triggeredBy, userId := userId, timestamp := now,
           reason := reason }] }
      .ok (d2.enqueueCommand "esp32_command"
        { relay := some relayName, state := some state, mode := some rel.mode,
          pin := some rel.pin,
          esp32Command := some (esp32StateCommand relayName triggeredBy state) }
        (if triggeredBy = .alert then .critical else .high) now)
    else .ok d

/-- Model method `setRelayMode(relayName, mode, userId, reason)`.  The mode
enum makes the AUTO/MANUAL validity check vacuous; fertilizerPump with AUTO
throws; an unchanged mode saves the document as is; otherwise the mode is
updated, a history entry is pushed and a high-priority `esp32_command` is
queued (with an empty command string for relays other than waterPump and
ventilationFan, as in the source). -/
def Device.setRelayMode (d : Device) (relayName : RelayName) (mode : Mode)
    (userId : Option Nat) (reason : String) (now : Nat) : Except CtrlErr Device :=
  match d.getRelay relayName with
  | none => .error .relayNotFound
  | some rel =>
    if relayName = .fertilizerPump ∧ mode = .auto then .error .modeNotSupported
    else if rel.mode ≠ mode then
      let d1 := d.setRelayRec relayName { rel with mode := mode }
      let d2 : Device := { d1 with controlHistory := d1.controlHistory ++
        [{ action := "set_mode_" ++ relayKey relayName, relay := relayKey relayName,
           previousState := .mode rel.mode, newState := .mode mode,
           triggeredBy := .manual, userId := userId, timestamp := now,
           reason := if reason = "" then
             "Set " ++ relayKey relayName ++ " to " ++ modeStr mode ++ " mode"
           else reason }] }
      let esp : String :=
        match relayName with
        | .waterPump => "WATER:" ++ modeStr mode
        | .ventilationFan => "FAN:" ++ modeStr mode
        | .fertilizerPump => ""
      .ok (d2.enqueueCommand "esp32_command"
        { relay := some relayName, mode := some mode, esp32Command := some esp }
        .high now)
    else .ok d

/-- Controller `setRelayMode` (route PUT relay mode): after the mode and
relay-existence validations it rejects any relay other than waterPump and
ventilationFan with a mode-not-supported failure before touching the
document, then delegates to the model method.  The returned device is the
document state after the request. -/
def setRelayModeRoute (d : Device) (relayName : RelayName) (mode : Mode)
    (userId : Option Nat) (reason : String) (now : Nat) :
    Device × Except CtrlErr Mode :=
  match d.getRelay relayName with
  | none => (d, .error .relayNotFound)
  | some _ =>
    if relayName = .waterPump ∨ relayName = .ventilationFan then
      match d.setRelayMode relayName mode userId reason now with
      | .ok d1 => (d1, .ok mode)
      | .error e => (d, .error e)
    else (d, .error .modeNotSupported)

/-- Replace the first command with the given id (mongoose `commandQueue.id`
returns the first matching subdocument, which the controller then mutates). -/
def updateCommandFirst (cid : Nat) (f : Command → Command) : List Command → List Command
  | [] => []
  | c :: rest => if c.id = cid then f c :: rest else c :: updateCommandFirst cid f rest

/-- The mutation the acknowledge controller applies to the found command:
status stamped unconditionally, `acknowledgedAt` recorded, reported error
stored when present. -/
def ackStamp (st : CmdStatus) (err : Option String) (now : Nat) (c : Command) : Command :=
  { c with status := st, acknowledgedAt := some now,
           error := (match err with | some e => some e | none => c.error) }

/-- Controller `acknowledgeCommand` (route POST command ack): looks the
command up by id (404 when absent), then unconditionally stamps its status
to acknowledged on success and failed otherwise, records `acknowledgedAt`,
and stores the reported error if one was sent.  No retry logic exists. -/
def Device.acknowledgeCommand (dev : Device) (cid : Nat) (success : Bool)
    (err : Option String) (now : Nat) : Device × Except CtrlErr CmdStatus :=
  match dev.commandQueue.find? (fun c => decide (c.id = cid)) with
  | none => (dev, .error .commandNotFound)
  | some _ =>
    let st : CmdStatus := if success then .acknowledged else .failed
    ({ dev with
       commandQueue := updateCommandFirst cid (ackStamp st err now) dev.commandQueue },
     .ok st)

/-- Mark one command sent, setting `sentAt`. -/
def markSent (now : Nat) (c : Command) : Command :=
  { c with status := .sent, sentAt := some now }

/-- Controller `getPendingCommands` (device-facing route GET commands): reads
the pending commands, marks every one of them sent with `sentAt` set (the
source mutates the returned subdocument references, which are exactly the
pending entries of the queue), saves, and returns the marked commands. -/
def getPendingCommandsRoute (dev : Device) (now : Nat) : Device × List Command :=
  let q := dev.commandQueue.map (fun c => if c.status = .pending then markSent now c else c)
  ({ dev with commandQueue := q }, dev.getPendingCommands.map (markSent now))

/-- Controller `getControlStates` (route GET control states): a read-only
query returning, among other data, `getPendingCommands()`; the document is
never saved or mutated. -/
def getControlStatesRoute (dev : Device) : Device × List Command :=
  (dev, dev.getPendingCommands)

/-- Controller `getDeviceStatusWithFailsafe` (route GET status): a read-only
query returning, among other data, the pending-command count; the document
is never saved or mutated. -/
def getDeviceStatusWithFailsafeRoute (dev : Device) : Device × Nat :=
  (dev, dev.getPendingCommands.length)

/-- Events emitted by the failsafe service over the socket. -/
inductive FsEvent
  | deviceOffline (offlineMinutes : Nat)
  | offlineEscalation (severity : Severity) (offlineMinutes : Nat)
  | emergencyFailsafe
  | deviceOnline (offlineDuration : Nat)
  | criticalAlert
deriving DecidableEq, Repr

/-- Latest sensor snapshot fields consulted by `assessCriticalConditions`. -/
structure SensorSnap where
  temp2 : Int
  soilMoisture : Int
  waterTankLevel : Int
deriving DecidableEq, Repr

/-- Per-device entry of the `offlineDevices` map of the failsafe service. -/
structure OfflineInfo where
  offlineSince : Nat
  notificationsSent : Nat
  failsafeActivated : Bool
deriving DecidableEq, Repr

/-- Service `assessCriticalConditions(device, sensorData)`: forces the
ventilation fan MANUAL/ON on high greenhouse temperature, the water pump
MANUAL/ON on critically low soil moisture with a usable tank, emits a
critical alert on a critically low tank, and logs one system history entry
when any action was taken.  Relay fields are mutated directly. -/
def assessCriticalConditions (dev : Device) (snap : SensorSnap) (now : Nat) :
    Device × List FsEvent :=
  let acts1 : List String :=
    if snap.temp2 > 35 ∧ dev.ventilationFan.isSome then
      ["Emergency ventilation activated - high temperature"] else []
  let dev1 : Device :=
    if snap.temp2 > 35 then
      match dev.ventilationFan with
      | some fan => dev.setRelayRec .ventilationFan { fan with state := true, mode := .manual }
      | none => dev
    else dev
  let acts2 : List String :=
    if snap.soilMoisture < 20 ∧ snap.waterTankLevel > 15 ∧ dev1.waterPump.isSome then
      ["Emergency irrigation activated - critically low soil moisture"] else []
  let dev2 : Device :=
    if snap.soilMoisture < 20 ∧ snap.waterTankLevel > 15 then
      match dev1.waterPump with
      | some wp => dev1.setRelayRec .waterPump { wp with state := true, mode := .manual }
      | none => dev1
    else dev1
  let acts3 : List String :=
    if snap.waterTankLevel < 10 then
      ["CRITICAL: Water tank level below 10 percent - manual refill required"] else []
  let events : List FsEvent :=
    if snap.waterTankLevel < 10 then [.criticalAlert] else []
  let acts := acts1 ++ acts2 ++ acts3
  let dev3 : Device :=
    if acts.length > 0 then
      { dev2 with controlHistory := dev2.controlHistory ++
        [{ action := "critical_failsafe", relay := "system",
           previousState := .bool false, newState := .bool true,
           triggeredBy := .alert, timestamp := now,
           reason := "Critical conditions: " ++ String.intercalate ", " acts }] }
    else dev2
  (dev3, events)

/-- Service `handleDeviceOffline(device, offlineMinutes)`: emits the
device-offline warning, assesses critical conditions against the latest
sensor snapshot when one exists, and logs the offline event. -/
def handleDeviceOffline (dev : Device) (offlineMinutes : Nat)
    (latest : Option SensorSnap) (now : Nat) : Device × List FsEvent :=
  let r : Device × List FsEvent :=
    match latest with
    | some snap => assessCriticalConditions dev snap now
    | none => (dev, [])
  let dev2 : Device :=
    { r.1 with controlHistory := r.1.controlHistory ++
      [{ action := "device_offline", relay := "system",
         previousState := .bool true, newState := .bool false,
         triggeredBy := .alert, timestamp := now,
         reason := "Device went offline after " ++ toString offlineMinutes ++
           " minutes of no communication" }] }
  (dev2, .deviceOffline offlineMinutes :: r.2)

/-- Service `activateEmergencyFailsafe(device)`: mutates the relay records
directly (water pump MANUAL/ON, ventilation fan MANUAL/ON, fertilizer pump
OFF), emits the emergency event, and logs one system history entry.  No
command is enqueued and `setRelay` is not used. -/
def activateEmergencyFailsafe (dev : Device) (now : Nat) : Device × List FsEvent :=
  let dev1 : Device :=
    match dev.waterPump with
    | some wp => dev.setRelayRec .waterPump { wp with state := true, mode := .manual }
    | none => dev
  let dev2 : Device :=
    match dev1.ventilationFan with
    | some fan => dev1.setRelayRec .ventilationFan { fan with state := true, mode := .manual }
    | none => dev1
  let dev3 : Device :=
    match dev2.fertilizerPump with
    | some fp => dev2.setRelayRec .fertilizerPump { fp with state := false }
    | none => dev2
  let dev4 : Device :=
    { dev3 with controlHistory := dev3.controlHistory ++
      [{ action := "emergency_failsafe", relay := "system",
         previousState := .bool false, newState := .bool true,
         triggeredBy := .alert, timestamp := now,
         reason := "Device offline for over 1 hour - emergency procedures activated" }] }
  (dev4, [.emergencyFailsafe])

/-- The escalation block of `handleContinuedOffline`: every sweep at which
`offlineMinutes % 30 === 0` and fewer than 5 notifications have gone out
emits one escalation (critical above 60 minutes, high otherwise) and bumps
the counter. -/
def escalationStep (info : OfflineInfo) (offlineMinutes : Nat) :
    OfflineInfo × List FsEvent :=
  if offlineMinutes % 30 = 0 ∧ info.notificationsSent < 5 then
    ({ info with notificationsSent := info.notificationsSent + 1 },
     [.offlineEscalation (if 60 < offlineMinutes then .critical else .high) offlineMinutes])
  else (info, [])

/-- The emergency block of `handleContinuedOffline`: past 60 minutes with
the `failsafeActivated` flag still false, activate the emergency failsafe
and set the flag. -/
def emergencyStep (dev : Device) (info : OfflineInfo) (offlineMinutes now : Nat) :
    Device × OfflineInfo × List FsEvent :=
  if 60 < offlineMinutes ∧ info.failsafeActivated = false then
    ((activateEmergencyFailsafe dev now).1,
     { info with failsafeActivated := true },
     (activateEmergencyFailsafe dev now).2)
  else (dev, info, [])

/-- Service `handleContinuedOffline(device, offlineMinutes)`: the escalation
block followed by the emergency block on the updated tracker entry. -/
def handleContinuedOffline (dev : Device) (info : OfflineInfo)
    (offlineMinutes now : Nat) : Device × OfflineInfo × List FsEvent :=
  let e := escalationStep info offlineMinutes
  let r := emergencyStep dev e.1 offlineMinutes now
  (r.1, r.2.1, e.2 ++ r.2.2)

/-- Reset one relay back to AUTO when it is currently MANUAL (the
`resetFailsafeMode` mode resets, applied directly to the relay record). -/
def resetRelayToAuto (dev : Device) (r : RelayName) : Device :=
  match dev.getRelay r with
  | some rel => if rel.mode = .manual then dev.setRelayRec r { rel with mode := .auto } else dev
  | none => dev

/-- Service `resetFailsafeMode(device)`: resets water pump and ventilation
fan modes to AUTO when they are MANUAL, queues exactly the two high-priority
mode-reset commands WATER:AUTO and FAN:AUTO, and logs the reset. -/
def resetFailsafeMode (dev : Device) (now : Nat) : Device :=
  let dev1 := resetRelayToAuto dev .waterPump
  let dev2 := resetRelayToAuto dev1 .ventilationFan
  let dev3 := dev2.enqueueCommand "esp32_command" { esp32Command := some "WATER:AUTO" } .high now
  let dev4 := dev3.enqueueCommand "esp32_command" { esp32Command := some "FAN:AUTO" } .high now
  { dev4 with controlHistory := dev4.controlHistory ++
    [{ action := "failsafe_reset", relay := "system",
       previousState := .bool true, newState := .bool false,
       triggeredBy := .automation, timestamp := now,
       reason := "Device reconnected - resetting to automatic modes" }] }

/-- Service `handleDeviceOnline(device)`: emits the recovery event, resets
failsafe modes when the emergency failsafe had been applied during the
episode, and logs the recovery. -/
def handleDeviceOnline (dev : Device) (info : OfflineInfo) (now : Nat) :
    Device × List FsEvent :=
  let offlineDuration := now - info.offlineSince
  let dev1 : Device := if info.failsafeActivated then resetFailsafeMode dev now else dev
  let dev2 : Device :=
    { dev1 with controlHistory := dev1.controlHistory ++
      [{ action := "device_online", relay := "system",
         previousState := .bool false, newState := .bool true,
         triggeredBy := .alert, timestamp := now,
         reason := "Device came back online after " ++ toString offlineDuration ++
           " minutes offline" }] }
  (dev2, [.deviceOnline offlineDuration])

/-- Service `evaluateDeviceStatus(device)` for one device at one sweep:
computes the offline minutes from the last heartbeat, and dispatches on the
10-minute offline threshold and the presence of a tracker entry. -/
def evaluateDeviceStatus (dev : Device) (tracker : Option OfflineInfo)
    (latest : Option SensorSnap) (lastHeartbeat now : Nat) :
    Device × Option OfflineInfo × List FsEvent :=
  let offlineMinutes := now - lastHeartbeat
  match tracker with
  | none =>
    if 10 < offlineMinutes then
      let r := handleDeviceOffline dev offlineMinutes latest now
      (r.1, some { offlineSince := lastHeartbeat, notificationsSent := 0,
                   failsafeActivated := false }, r.2)
    else (dev, none, [])
  | some info =>
    if 10 < offlineMinutes then
      let r := handleContinuedOffline dev info offlineMinutes now
      (r.1, some r.2.1, r.2.2)
    else
      let r := handleDeviceOnline dev info now
      (r.1, none, r.2)

/-- A run of consecutive monitoring sweeps at the given sweep times, with a
fixed last heartbeat (no heartbeat arrives during the run), accumulating
the emitted events. -/
def runSweeps (latest : Option SensorSnap) (lastHeartbeat : Nat) :
    Device → Option OfflineInfo → List Nat → Device × Option OfflineInfo × List FsEvent
  | dev, tracker, [] => (dev, tracker, [])
  | dev, tracker, t :: ts =>
    let r1 := evaluateDeviceStatus dev tracker latest lastHeartbeat t
    let r2 := runSweeps latest lastHeartbeat r1.1 r1.2.1 ts
    (r2.1, r2.2.1, r1.2.2 ++ r2.2.2)

/-- Recognizer for emergency-failsafe events. -/
def isEmergencyEv : FsEvent → Bool
  | .emergencyFailsafe => true
  | _ => false

/-- Recognizer for offline-escalation events. -/
def isEscalationEv : FsEvent → Bool
  | .offlineEscalation _ _ => true
  | _ => false

/-- Base sample device: the three enhanced relays with their schema default
pins and modes, an empty queue and history. -/
def dev0 : Device :=
  { waterPump := some { state := false, mode := .auto, pin := 4 },
    ventilationFan := some { state := false, mode := .auto, pin := 8 },
    fertilizerPump := some { state := false, mode := .manual, pin := 7 },
    commandQueue := [], controlHistory := [], nextCmdId := 1 }

/-- Sample device whose queue holds pending commands of priorities
low, critical, high, high enqueued in that order (ids 1, 2, 3, 4). -/
def devC4 : Device :=
  { dev0 with
    commandQueue :=
      [ { id := 1, command := "esp32_command", params := {}, priority := .low,
          status := .pending, createdAt := 0 },
        { id := 2, command := "esp32_command", params := {}, priority := .critical,
          status := .pending, createdAt := 1 },
        { id := 3, command := "esp32_command", params := {}, priority := .high,
          status := .pending, createdAt := 2 },
        { id := 4, command := "esp32_command", params := {}, priority := .high,
          status := .pending, createdAt := 3 } ],
    nextCmdId := 5 }

/-- Tracker entry of an episode in which the emergency failsafe was applied. -/
def infoT : OfflineInfo :=
  { offlineSince := 0, notificationsSent := 2, failsafeActivated := true }

/-- Tracker entry of a fresh offline episode, failsafe not yet applied. -/
def infoF : OfflineInfo :=
  { offlineSince := 0, notificationsSent := 0, failsafeActivated := false }

/-- The single system-level history entry written by the emergency failsafe. -/
def emergencyHistEntry (now : Nat) : HistoryEntry :=
  { action := "emergency_failsafe", relay := "system",
    previousState := .bool false, newState := .bool true,
    triggeredBy := .alert, timestamp := now,
    reason := "Device offline for over 1 hour - emergency procedures activated" }

/-- Sample device whose queue holds one pending command (id 1) that has
never been retried. -/
def devC2 : Device :=
  { dev0 with
    commandQueue :=
      [ { id := 1, command := "esp32_command",
          params := { esp32Command := some "WATER:MANUAL:ON" }, priority := .high,
          status := .pending, createdAt := 0 } ],
    nextCmdId := 2 }

/-- Sample device whose queue holds one already-Failed command (id 1). -/
def devC5 : Device :=
  { dev0 with
    commandQueue :=
      [ { id := 1, command := "esp32_command",
          params := { esp32Command := some "FAN:MANUAL:ON" }, priority := .high,
          status := .failed, createdAt := 0, acknowledgedAt := some 2 } ],
    nextCmdId := 2 }

/-- Priority-descending relation used to state sortedness of the pending
command list. -/
abbrev prioGE (a b : Command) : Prop :=
  priorityOrder b.priority ≤ priorityOrder a.priority

lemma perm_insertByPriority (c : Command) (l : List Command) :
    List.Perm (insertByPriority c l) (c :: l) := by
  induction l with
  | nil => simp [insertByPriority]
  | cons c2 rest ih =>
    rw [insertByPriority]
    split
    · exact List.Perm.refl _
    · exact (ih.cons c2).trans (List.Perm.swap c c2 rest)

lemma mem_insertByPriority {x c : Command} {l : List Command} :
    x ∈ insertByPriority c l ↔ x = c ∨ x ∈ l := by
  rw [(perm_insertByPriority c l).mem_iff, List.mem_cons]

lemma pairwise_insertByPriority {c : Command} {l : List Command}
    (h : l.Pairwise prioGE) : (insertByPriority c l).Pairwise prioGE := by
  induction l with
  | nil => simp [insertByPriority]
  | cons c2 rest ih =>
    rcases List.pairwise_cons.mp h with ⟨h1, h2⟩
    rw [insertByPriority]
    split
    · rename_i hc
      refine List.pairwise_cons.mpr ⟨?_, h⟩
      intro x hx
      rcases List.mem_cons.mp hx with rfl | hx
      · exact hc
      · exact le_trans (h1 x hx) hc
    · rename_i hc
      refine List.pairwise_cons.mpr ⟨?_, ih h2⟩
      intro x hx
      rcases mem_insertByPriority.mp hx with rfl | hx
      · exact le_of_not_le hc
      · exact h1 x hx

lemma perm_sortByPriorityDesc (l : List Command) :
    List.Perm (sortByPriorityDesc l) l := by
  induction l with
  | nil => simp [sortByPriorityDesc]
  | cons c rest ih => exact (perm_insertByPriority c _).trans (ih.cons c)

lemma pairwise_sortByPriorityDesc (l : List Command) :
    (sortByPriorityDesc l).Pairwise prioGE := by
  induction l with
  | nil => simp [sortByPriorityDesc]
  | cons c rest ih => exact pairwise_insertByPriority ih

lemma priorityOrder_lt_ne {p q : Priority} (h : priorityOrder p < priorityOrder q) :
    q ≠ p := by
  cases p <;> cases q <;> simp_all [priorityOrder]

lemma filter_insertByPriority (p : Priority) (c : Command) (l : List Command) :
    (insertByPriority c l).filter (fun x => decide (x.priority = p))
      = if c.priority = p
        then c :: l.filter (fun x => decide (x.priority = p))
        else l.filter (fun x => decide (x.priority = p)) := by
  induction l with
  | nil =>
    by_cases h : c.priority = p <;> simp [insertByPriority, List.filter_cons, h]
  | cons c2 rest ih =>
    rw [insertByPriority]
    split
    · rename_i hc
      by_cases h : c.priority = p <;> simp [List.filter_cons, h]
    · rename_i hc
      have hlt : priorityOrder c.priority < priorityOrder c2.priority :=
        lt_of_not_le hc
      by_cases h1 : c.priority = p
      · have h2 : ¬ (c2.priority = p) := by
          intro h2
          exact (priorityOrder_lt_ne hlt) (h2.trans h1.symm)
        simp [List.filter_cons, h1, h2, ih]
      · by_cases h2 : c2.priority = p <;> simp [List.filter_cons, h1, h2, ih]

lemma filter_sortByPriorityDesc (p : Priority) (l : List Command) :
    (sortByPriorityDesc l).filter (fun x => decide (x.priority = p))
      = l.filter (fun x => decide (x.priority = p)) := by
  induction l with
  | nil => rfl
  | cons c rest ih =>
    rw [sortByPriorityDesc, filter_insertByPriority, ih, List.filter_cons]
    by_cases h : c.priority = p <;> simp [h]


/-- C4: `pendingFor` returns exactly the Pending commands of the device
queue (a permutation of the pending filter), sorted by priority descending,
with ties left in enqueue order — the subsequence of any one priority equals
the pending commands of that priority in queue order — and on priorities
[low, critical, high, high] enqueued in that order (ids 1, 2, 3, 4) it
returns the ids in order [2, 3, 4, 1]. -/
theorem pendingFor_priority_then_fifo (dev : Device) (p : Priority) :
    List.Perm dev.getPendingCommands
      (dev.commandQueue.filter (fun c => decide (c.status = .pending)))
    ∧ dev.getPendingCommands.Pairwise prioGE
    ∧ dev.getPendingCommands.filter (fun c => decide (c.priority = p))
        = dev.commandQueue.filter
            (fun c => decide (c.priority = p) && decide (c.status = .pending))
    ∧ devC4.getPendingCommands.map (fun c => c.id) = [2, 3, 4, 1] := by
  refine ⟨perm_sortByPriorityDesc _, pairwise_sortByPriorityDesc _, ?_, by decide⟩
  rw [Device.getPendingCommands, filter_sortByPriorityDesc, List.filter_filter]

/-- C10: the control-states query and the failsafe-status query are pure
reads — the document, hence every command status and sentAt, is unchanged —
while the device-facing pending-commands route marks exactly the pending
commands of the queue Sent with sentAt set, and every command it returns is
Sent with sentAt set. -/
theorem poll_is_only_delivery_point (dev : Device) (now : Nat) (c : Command)
    (hc : c ∈ (getPendingCommandsRoute dev now).2) :
    (getControlStatesRoute dev).1 = dev
    ∧ (getDeviceStatusWithFailsafeRoute dev).1 = dev
    ∧ (getPendingCommandsRoute dev now).1.commandQueue
        = dev.commandQueue.map
            (fun x => if x.status = .pending then markSent now x else x)
    ∧ c.status = .sent ∧ c.sentAt = some now := by
  refine ⟨rfl, rfl, rfl, ?_, ?_⟩ <;>
  · simp only [getPendingCommandsRoute] at hc
    rcases List.mem_map.mp hc with ⟨x, _, rfl⟩
    rfl

/-- Witness for the poll/read-only claim at a concrete device. -/
theorem poll_is_only_delivery_point_witness :
    (markSent 7 { id := 2, command := "esp32_command", params := {},
                  priority := .critical, status := .pending, createdAt := 1 }
        ∈ (getPendingCommandsRoute devC4 7).2)
    ∧ ((getControlStatesRoute devC4).1 = devC4
      ∧ (getDeviceStatusWithFailsafeRoute devC4).1 = devC4
      ∧ (getPendingCommandsRoute devC4 7).1.commandQueue
          = devC4.commandQueue.map
              (fun x => if x.status = .pending then markSent 7 x else x)
      ∧ (markSent 7 { id := 2, command := "esp32_command", params := {},
                      priority := .critical, status := .pending,
                      createdAt := 1 }).status = .sent
      ∧ (markSent 7 { id := 2, command := "esp32_command", params := {},
                      priority := .critical, status := .pending,
                      createdAt := 1 }).sentAt = some 7) :=
  ⟨by decide,
   poll_is_only_delivery_point devC4 7
     (markSent 7 { id := 2, command := "esp32_command", params := {},
                   priority := .critical, status := .pending, createdAt := 1 })
     (by decide)⟩

/-- C8: `setRelay` called with the current state of the relay succeeds and
returns the document unchanged: no relay mutation, no history entry, no
queued command. -/
theorem setRelay_same_state_noop (dev : Device) (r : RelayName) (s : Bool)
    (trig : Trigger) (uid : Option Nat) (reason : String) (now : Nat)
    (rel : Relay) (hrel : dev.getRelay r = some rel) (hs : rel.state = s) :
    dev.setRelay r s trig uid reason now = .ok dev := by
  rw [Device.setRelay, hrel]
  simp [hs]

/-- Witness for the setRelay no-op claim at a concrete device. -/
theorem setRelay_same_state_noop_witness :
    (dev0.getRelay .waterPump = some { state := false, mode := .auto, pin := 4 }
      ∧ ({ state := false, mode := .auto, pin := 4 } : Relay).state = false)
    ∧ dev0.setRelay .waterPump false .manual none "noop" 3 = .ok dev0 :=
  ⟨⟨rfl, rfl⟩,
   setRelay_same_state_noop dev0 .waterPump false .manual none "noop" 3
     { state := false, mode := .auto, pin := 4 } rfl rfl⟩

/-- C6: requesting AUTO mode for the fertilizer pump through the mode route
is always rejected with the mode-not-supported failure before any mutation,
so the relay, the history and the command queue are all unchanged. -/
theorem fertilizer_auto_mode_rejected (dev : Device) (uid : Option Nat)
    (reason : String) (now : Nat) (h : dev.fertilizerPump.isSome = true) :
    setRelayModeRoute dev .fertilizerPump .auto uid reason now
      = (dev, .error .modeNotSupported) := by
  rcases Option.isSome_iff_exists.mp h with ⟨rel, hrel⟩
  rw [setRelayModeRoute]
  simp [Device.getRelay, hrel]

/-- Witness for the fertilizer-pump mode rejection at a concrete device. -/
theorem fertilizer_auto_mode_rejected_witness :
    dev0.fertilizerPump.isSome = true
    ∧ setRelayModeRoute dev0 .fertilizerPump .auto none "switch" 0
        = (dev0, .error .modeNotSupported) :=
  ⟨rfl, fertilizer_auto_mode_rejected dev0 none "switch" 0 rfl⟩

@[simp] lemma setRelayRec_commandQueue (d : Device) (r : RelayName) (rel : Relay) :
    (d.setRelayRec r rel).commandQueue = d.commandQueue := by
  cases r <;> rfl

@[simp] lemma setRelayRec_nextCmdId (d : Device) (r : RelayName) (rel : Relay) :
    (d.setRelayRec r rel).nextCmdId = d.nextCmdId := by
  cases r <;> rfl

@[simp] lemma setRelayRec_controlHistory (d : Device) (r : RelayName) (rel : Relay) :
    (d.setRelayRec r rel).controlHistory = d.controlHistory := by
  cases r <;> rfl

@[simp] lemma resetRelayToAuto_commandQueue (d : Device) (r : RelayName) :
    (resetRelayToAuto d r).commandQueue = d.commandQueue := by
  rw [resetRelayToAuto]
  split
  · split <;> simp
  · rfl

@[simp] lemma resetRelayToAuto_nextCmdId (d : Device) (r : RelayName) :
    (resetRelayToAuto d r).nextCmdId = d.nextCmdId := by
  rw [resetRelayToAuto]
  split
  · split <;> simp
  · rfl


/-- C7: recovery after an episode whose tracker has `failsafeActivated`
appends exactly two pending high-priority mode-reset commands, WATER:AUTO
then FAN:AUTO, to the queue, and neither of the appended commands concerns
the fertilizer pump. -/
theorem recovery_enqueues_water_and_fan_auto (dev : Device) (info : OfflineInfo)
    (now : Nat) (h : info.failsafeActivated = true) :
    (handleDeviceOnline dev info now).1.commandQueue
      = dev.commandQueue ++
        [ { id := dev.nextCmdId, command := "esp32_command",
            params := { esp32Command := some "WATER:AUTO" }, priority := .high,
            status := .pending, createdAt := now },
          { id := dev.nextCmdId + 1, command := "esp32_command",
            params := { esp32Command := some "FAN:AUTO" }, priority := .high,
            status := .pending, createdAt := now } ]
    ∧ (((handleDeviceOnline dev info now).1.commandQueue.drop
          dev.commandQueue.length).all
        (fun c => decide (c.params.relay ≠ some RelayName.fertilizerPump)
          && decide (c.params.esp32Command ≠ some "FERTILIZER:ON")
          && decide (c.params.esp32Command ≠ some "FERTILIZER:OFF"))) = true := by
  have hq : (handleDeviceOnline dev info now).1.commandQueue
      = dev.commandQueue ++
        [ { id := dev.nextCmdId, command := "esp32_command",
            params := { esp32Command := some "WATER:AUTO" }, priority := .high,
            status := .pending, createdAt := now },
          { id := dev.nextCmdId + 1, command := "esp32_command",
            params := { esp32Command := some "FAN:AUTO" }, priority := .high,
            status := .pending, createdAt := now } ] := by
    simp [handleDeviceOnline, h, resetFailsafeMode, Device.enqueueCommand]
  refine ⟨hq, ?_⟩
  rw [hq, List.drop_left]
  simp

/-- Witness for the recovery mode-reset claim at a concrete device. -/
theorem recovery_enqueues_water_and_fan_auto_witness :
    infoT.failsafeActivated = true
    ∧ ((handleDeviceOnline dev0 infoT 65).1.commandQueue
        = dev0.commandQueue ++
          [ { id := dev0.nextCmdId, command := "esp32_command",
              params := { esp32Command := some "WATER:AUTO" }, priority := .high,
              status := .pending, createdAt := 65 },
            { id := dev0.nextCmdId + 1, command := "esp32_command",
              params := { esp32Command := some "FAN:AUTO" }, priority := .high,
              status := .pending, createdAt := 65 } ]
      ∧ (((handleDeviceOnline dev0 infoT 65).1.commandQueue.drop
            dev0.commandQueue.length).all
          (fun c => decide (c.params.relay ≠ some RelayName.fertilizerPump)
            && decide (c.params.esp32Command ≠ some "FERTILIZER:ON")
            && decide (c.params.esp32Command ≠ some "FERTILIZER:OFF"))) = true) :=
  ⟨rfl, recovery_enqueues_water_and_fan_auto dev0 infoT 65 rfl⟩


/-- C3 counterexample: on a device with all three relays, the emergency
failsafe changes the water pump state (off to MANUAL/on) yet enqueues no
command at all and writes no per-actuator audit entry — only one entry with
relay key "system" — so the emergency actions are not applied through the
`setRelay` transition path. -/
theorem emergency_bypasses_registry_counterexample :
    (activateEmergencyFailsafe dev0 61).1.waterPump
        = some { state := true, mode := .manual, pin := 4 }
    ∧ (activateEmergencyFailsafe dev0 61).1.commandQueue = []
    ∧ ((activateEmergencyFailsafe dev0 61).1.controlHistory.filter
        (fun e => decide (e.relay = relayKey .waterPump))) = []
    ∧ ¬ ((activateEmergencyFailsafe dev0 61).1.commandQueue.length = 2) := by
  refine ⟨rfl, rfl, by decide, by decide⟩

/-- C3 amended: the emergency failsafe mutates the relay records directly —
water pump to MANUAL/on, ventilation fan to MANUAL/on, fertilizer pump off —
appends exactly one system-level history entry tagged emergency_failsafe
with triggeredBy alert, enqueues no command, and emits the emergency event;
it does not go through the `setRelay` transition path. -/
theorem emergency_failsafe_direct_mutation (dev : Device) (now : Nat) :
    (activateEmergencyFailsafe dev now).1.commandQueue = dev.commandQueue
    ∧ (activateEmergencyFailsafe dev now).1.controlHistory
        = dev.controlHistory ++ [emergencyHistEntry now]
    ∧ (activateEmergencyFailsafe dev now).1.waterPump
        = dev.waterPump.map (fun r => { r with state := true, mode := .manual })
    ∧ (activateEmergencyFailsafe dev now).1.ventilationFan
        = dev.ventilationFan.map (fun r => { r with state := true, mode := .manual })
    ∧ (activateEmergencyFailsafe dev now).1.fertilizerPump
        = dev.fertilizerPump.map (fun r => { r with state := false })
    ∧ (activateEmergencyFailsafe dev now).2 = [.emergencyFailsafe] := by
  obtain ⟨wp, vf, fp, q, hist, n⟩ := dev
  cases wp <;> cases vf <;> cases fp <;>
    simp [activateEmergencyFailsafe, Device.setRelayRec, emergencyHistEntry]

lemma updateCommandFirst_map {β : Type} (g : Command → β) (f : Command → Command)
    (hf : ∀ c, g (f c) = g c) (cid : Nat) (l : List Command) :
    (updateCommandFirst cid f l).map g = l.map g := by
  induction l with
  | nil => rfl
  | cons c rest ih =>
    rw [updateCommandFirst]
    split
    · simp [hf]
    · simp [ih]

lemma filter_id_nil_of_not_mem (cid : Nat) (l : List Command)
    (h : cid ∉ l.map (fun c => c.id)) :
    l.filter (fun c => decide (c.id = cid)) = [] := by
  induction l with
  | nil => rfl
  | cons c rest ih =>
    simp only [List.map_cons, List.mem_cons, not_or] at h
    rw [List.filter_cons, if_neg (by simpa using fun h1 => h.1 h1.symm)]
    exact ih h.2

lemma updateCommandFirst_filter (cid : Nat) (f : Command → Command)
    (hid : ∀ c, (f c).id = c.id) (l : List Command)
    (hnd : (l.map (fun c => c.id)).Nodup) :
    (updateCommandFirst cid f l).filter (fun c => decide (c.id = cid))
      = (l.filter (fun c => decide (c.id = cid))).map f := by
  induction l with
  | nil => rfl
  | cons c rest ih =>
    rw [List.map_cons, List.nodup_cons] at hnd
    rw [updateCommandFirst]
    split
    · rename_i hc
      have hrest : rest.filter (fun x => decide (x.id = cid)) = [] :=
        filter_id_nil_of_not_mem cid rest (by rw [← hc]; exact hnd.1)
      rw [List.filter_cons, List.filter_cons]
      simp [hid, hc, hrest]
    · rename_i hc
      rw [List.filter_cons, List.filter_cons]
      simp [hc, ih hnd.2]


/-- C2: evaluation of the acknowledge path at the failing input.  The
command-queue schema declares the retry budget (retryCount default 0,
maxRetries default 3) that the claimed protocol uses, yet acknowledging the
pending command of `devC2` with success false leaves retryCount at 0 and
puts the command in status Failed — not back to Pending with retryCount 1,
which the claimed protocol requires since 1 is within maxRetries 3.  The
handler never consults the retry fields. -/
theorem failed_ack_no_retry_counterexample :
    (devC2.acknowledgeCommand 1 false none 9).1.commandQueue.map
        (fun c => (c.status, c.retryCount, c.maxRetries)) = [(.failed, 0, 3)]
    ∧ ¬ ((devC2.acknowledgeCommand 1 false none 9).1.commandQueue.map
        (fun c => (c.status, c.retryCount, c.maxRetries)) = [(.pending, 1, 3)]) := by
  exact ⟨by decide, by decide⟩

/-- General characterization of the failure-acknowledge path as implemented:
acknowledging a found command with success false immediately marks it
Failed; retryCount and maxRetries are never read or modified, no revert to
Pending happens, and the command is not redelivered: it no longer appears
among the pending commands. -/
theorem failed_ack_marks_failed (dev : Device) (cid now : Nat)
    (err : Option String) (c : Command)
    (hfind : dev.commandQueue.find? (fun x => decide (x.id = cid)) = some c)
    (hnd : (dev.commandQueue.map (fun x => x.id)).Nodup) :
    (dev.acknowledgeCommand cid false err now).2 = .ok .failed
    ∧ (dev.acknowledgeCommand cid false err now).1.commandQueue.map
        (fun x => x.retryCount) = dev.commandQueue.map (fun x => x.retryCount)
    ∧ (dev.acknowledgeCommand cid false err now).1.commandQueue.map
        (fun x => x.maxRetries) = dev.commandQueue.map (fun x => x.maxRetries)
    ∧ ((dev.acknowledgeCommand cid false err now).1.commandQueue.filter
         (fun x => decide (x.id = cid))).all
        (fun x => decide (x.status = .failed)) = true
    ∧ (dev.acknowledgeCommand cid false err now).1.getPendingCommands.countP
        (fun x => decide (x.id = cid)) = 0 := by
  have hred : dev.acknowledgeCommand cid false err now
      = ({ dev with commandQueue := updateCommandFirst cid (ackStamp .failed err now) dev.commandQueue }, .ok .failed) := by
    rw [Device.acknowledgeCommand, hfind]
    rfl
  rw [hred]
  have hfilter := updateCommandFirst_filter cid (ackStamp .failed err now)
    (fun c => rfl) dev.commandQueue hnd
  refine ⟨rfl, ?_, ?_, ?_, ?_⟩
  · exact updateCommandFirst_map (fun x => x.retryCount) (ackStamp .failed err now)
      (fun c => rfl) cid dev.commandQueue
  · exact updateCommandFirst_map (fun x => x.maxRetries) (ackStamp .failed err now)
      (fun c => rfl) cid dev.commandQueue
  · rw [hfilter]
    rw [List.all_eq_true]
    intro x hx
    rcases List.mem_map.mp hx with ⟨y, _, rfl⟩
    rfl
  · rw [Device.getPendingCommands]
    rw [(perm_sortByPriorityDesc _).countP_eq]
    rw [List.countP_eq_zero]
    intro a ha
    rcases List.mem_filter.mp ha with ⟨ha1, ha2⟩
    simp only [decide_eq_true_eq] at ha2 ⊢
    intro haid
    have hmem : a ∈ (updateCommandFirst cid (ackStamp .failed err now)
        dev.commandQueue).filter (fun x => decide (x.id = cid)) :=
      List.mem_filter.mpr ⟨ha1, by simp [haid]⟩
    rw [hfilter] at hmem
    rcases List.mem_map.mp hmem with ⟨b, _, hb⟩
    rw [← hb] at ha2
    exact absurd ha2 (by simp [ackStamp])

/-- Concrete instantiation of the failure-acknowledge characterization. -/
theorem failed_ack_marks_failed_witness :
    (devC2.commandQueue.find? (fun x => decide (x.id = 1))
        = some { id := 1, command := "esp32_command",
                 params := { esp32Command := some "WATER:MANUAL:ON" },
                 priority := .high, status := .pending, createdAt := 0 }
      ∧ (devC2.commandQueue.map (fun x => x.id)).Nodup)
    ∧ ((devC2.acknowledgeCommand 1 false none 9).2 = .ok .failed
      ∧ (devC2.acknowledgeCommand 1 false none 9).1.commandQueue.map
          (fun x => x.retryCount) = devC2.commandQueue.map (fun x => x.retryCount)
      ∧ (devC2.acknowledgeCommand 1 false none 9).1.commandQueue.map
          (fun x => x.maxRetries) = devC2.commandQueue.map (fun x => x.maxRetries)
      ∧ ((devC2.acknowledgeCommand 1 false none 9).1.commandQueue.filter
           (fun x => decide (x.id = 1))).all
          (fun x => decide (x.status = .failed)) = true
      ∧ (devC2.acknowledgeCommand 1 false none 9).1.getPendingCommands.countP
          (fun x => decide (x.id = 1)) = 0) :=
  ⟨⟨by decide, by decide⟩,
   failed_ack_marks_failed devC2 1 9 none
     { id := 1, command := "esp32_command",
       params := { esp32Command := some "WATER:MANUAL:ON" },
       priority := .high, status := .pending, createdAt := 0 }
     (by decide) (by decide)⟩


/-- C5 counterexample: acknowledging the already-Failed command of `devC5`
with success true is accepted (not rejected as not-found) and re-stamps the
command to Acknowledged, so Failed is not terminal and the document is
changed. -/
theorem ack_terminal_status_counterexample :
    devC5.commandQueue.map (fun c => c.status) = [CmdStatus.failed]
    ∧ (devC5.acknowledgeCommand 1 true none 9).2 = .ok .acknowledged
    ∧ (devC5.acknowledgeCommand 1 true none 9).1.commandQueue.map
        (fun c => c.status) = [CmdStatus.acknowledged]
    ∧ ¬ ((devC5.acknowledgeCommand 1 true none 9).2 = .error .commandNotFound)
    ∧ ¬ ((devC5.acknowledgeCommand 1 true none 9).1 = devC5) := by
  exact ⟨by decide, by decide, by decide, by decide, by decide⟩

/-- C5 amended: no status is terminal for the acknowledge route — any found
command is re-stamped to Acknowledged on success and Failed on failure, with
acknowledgedAt recorded, whatever its current status; only an id absent from
the queue is rejected with the command-not-found error, leaving the document
unchanged. -/
theorem ack_restamps_regardless_of_status (dev : Device) (cid cid2 now : Nat)
    (s : Bool) (err : Option String) (c : Command)
    (hfind : dev.commandQueue.find? (fun x => decide (x.id = cid)) = some c)
    (hnd : (dev.commandQueue.map (fun x => x.id)).Nodup)
    (h2 : dev.commandQueue.find? (fun x => decide (x.id = cid2)) = none) :
    (dev.acknowledgeCommand cid s err now).2
        = .ok (if s then CmdStatus.acknowledged else CmdStatus.failed)
    ∧ ((dev.acknowledgeCommand cid s err now).1.commandQueue.filter
         (fun x => decide (x.id = cid))).all
        (fun x =>
          decide (x.status = (if s then CmdStatus.acknowledged else CmdStatus.failed))
            && decide (x.acknowledgedAt = some now)) = true
    ∧ dev.acknowledgeCommand cid2 s err now = (dev, .error .commandNotFound) := by
  have hred : dev.acknowledgeCommand cid s err now
      = ({ dev with commandQueue := updateCommandFirst cid (ackStamp (if s then CmdStatus.acknowledged else CmdStatus.failed) err now) dev.commandQueue }, .ok (if s then CmdStatus.acknowledged else CmdStatus.failed)) := by
    rw [Device.acknowledgeCommand, hfind]
  have hq : (dev.acknowledgeCommand cid s err now).1.commandQueue
      = updateCommandFirst cid (ackStamp (if s then CmdStatus.acknowledged else CmdStatus.failed) err now) dev.commandQueue := by
    rw [hred]
  refine ⟨by rw [hred], ?_, by rw [Device.acknowledgeCommand, h2]⟩
  rw [hq]
  rw [updateCommandFirst_filter cid
    (ackStamp (if s then CmdStatus.acknowledged else CmdStatus.failed) err now)
    (fun c => rfl) dev.commandQueue hnd]
  rw [List.all_eq_true]
  intro x hx
  rcases List.mem_map.mp hx with ⟨y, _, rfl⟩
  simp [ackStamp]

/-- Witness for the re-stamping claim at a concrete device. -/
theorem ack_restamps_regardless_of_status_witness :
    (devC5.commandQueue.find? (fun x => decide (x.id = 1))
        = some { id := 1, command := "esp32_command",
                 params := { esp32Command := some "FAN:MANUAL:ON" },
                 priority := .high, status := .failed, createdAt := 0,
                 acknowledgedAt := some 2 }
      ∧ (devC5.commandQueue.map (fun x => x.id)).Nodup
      ∧ devC5.commandQueue.find? (fun x => decide (x.id = 2)) = none)
    ∧ ((devC5.acknowledgeCommand 1 true none 9).2
          = .ok (if true then CmdStatus.acknowledged else CmdStatus.failed)
      ∧ ((devC5.acknowledgeCommand 1 true none 9).1.commandQueue.filter
           (fun x => decide (x.id = 1))).all
          (fun x =>
            decide (x.status = (if true then CmdStatus.acknowledged else CmdStatus.failed))
              && decide (x.acknowledgedAt = some 9)) = true
      ∧ devC5.acknowledgeCommand 2 true none 9 = (devC5, .error .commandNotFound)) :=
  ⟨⟨by decide, by decide, by decide⟩,
   ack_restamps_regardless_of_status devC5 1 2 9 true none
     { id := 1, command := "esp32_command",
       params := { esp32Command := some "FAN:MANUAL:ON" },
       priority := .high, status := .failed, createdAt := 0,
       acknowledgedAt := some 2 }
     (by decide) (by decide) (by decide)⟩

lemma escalationStep_flag (info : OfflineInfo) (m : Nat) :
    (escalationStep info m).1.failsafeActivated = info.failsafeActivated := by
  rw [escalationStep]
  split <;> rfl

lemma escalationStep_no_emergency (info : OfflineInfo) (m : Nat) :
    (escalationStep info m).2.countP isEmergencyEv = 0 := by
  rw [escalationStep]
  split <;> rfl

lemma escalationStep_events (info : OfflineInfo) (m : Nat) :
    (escalationStep info m).2
      = if m % 30 = 0 ∧ info.notificationsSent < 5
        then [FsEvent.offlineEscalation (if 60 < m then .critical else .high) m]
        else [] := by
  rw [escalationStep]
  by_cases h : m % 30 = 0 ∧ info.notificationsSent < 5 <;> simp [h]

lemma activateEmergencyFailsafe_events (dev : Device) (now : Nat) :
    (activateEmergencyFailsafe dev now).2 = [FsEvent.emergencyFailsafe] := rfl

lemma emergencyStep_skip (dev : Device) (info : OfflineInfo) (m now : Nat)
    (h : info.failsafeActivated = true) :
    emergencyStep dev info m now = (dev, info, []) := by
  rw [emergencyStep, if_neg (by simp [h])]

lemma emergencyStep_low (dev : Device) (info : OfflineInfo) (m now : Nat)
    (h60 : ¬ 60 < m) :
    emergencyStep dev info m now = (dev, info, []) := by
  rw [emergencyStep, if_neg (by simp [h60])]

lemma emergencyStep_fire (dev : Device) (info : OfflineInfo) (m now : Nat)
    (h60 : 60 < m) (h : info.failsafeActivated = false) :
    emergencyStep dev info m now
      = ((activateEmergencyFailsafe dev now).1,
         { info with failsafeActivated := true },
         (activateEmergencyFailsafe dev now).2) := by
  rw [emergencyStep, if_pos ⟨h60, h⟩]

lemma hco_flag_true (dev : Device) (info : OfflineInfo) (m now : Nat)
    (h : info.failsafeActivated = true) :
    handleContinuedOffline dev info m now
      = (dev, (escalationStep info m).1, (escalationStep info m).2) := by
  simp only [handleContinuedOffline]
  rw [emergencyStep_skip _ _ _ _ (by rw [escalationStep_flag]; exact h)]
  simp

lemma hco_flag_true_spec (dev : Device) (info : OfflineInfo) (m now : Nat)
    (h : info.failsafeActivated = true) :
    (handleContinuedOffline dev info m now).2.1.failsafeActivated = true
    ∧ (handleContinuedOffline dev info m now).2.2.countP isEmergencyEv = 0 := by
  rw [hco_flag_true dev info m now h]
  exact ⟨by rw [escalationStep_flag]; exact h, escalationStep_no_emergency info m⟩

lemma hco_low (dev : Device) (info : OfflineInfo) (m now : Nat) (h60 : ¬ 60 < m) :
    handleContinuedOffline dev info m now
      = (dev, (escalationStep info m).1, (escalationStep info m).2) := by
  simp only [handleContinuedOffline]
  rw [emergencyStep_low _ _ _ _ h60]
  simp

lemma hco_low_spec (dev : Device) (info : OfflineInfo) (m now : Nat) (h60 : ¬ 60 < m) :
    (handleContinuedOffline dev info m now).2.1.failsafeActivated
        = info.failsafeActivated
    ∧ (handleContinuedOffline dev info m now).2.2.countP isEmergencyEv = 0 := by
  rw [hco_low dev info m now h60]
  exact ⟨escalationStep_flag info m, escalationStep_no_emergency info m⟩

lemma hco_fire (dev : Device) (info : OfflineInfo) (m now : Nat)
    (h60 : 60 < m) (h : info.failsafeActivated = false) :
    (handleContinuedOffline dev info m now).2.1.failsafeActivated = true
    ∧ (handleContinuedOffline dev info m now).2.2.countP isEmergencyEv = 1 := by
  simp only [handleContinuedOffline]
  rw [emergencyStep_fire _ _ _ _ h60 (by rw [escalationStep_flag]; exact h)]
  refine ⟨rfl, ?_⟩
  simp only [List.countP_append, activateEmergencyFailsafe_events]
  rw [escalationStep_no_emergency]
  rfl

lemma runSweeps_flag_true (latest : Option SensorSnap) (hb : Nat) (ts : List Nat) :
    ∀ (dev : Device) (info : OfflineInfo),
      (∀ t ∈ ts, 10 < t - hb) → info.failsafeActivated = true →
      ((runSweeps latest hb dev (some info) ts).2.2).countP isEmergencyEv = 0 := by
  induction ts with
  | nil => intro dev info _ _; rfl
  | cons t ts ih =>
    intro dev info hts hflag
    have hoff : 10 < t - hb := hts t (List.mem_cons_self t ts)
    have htail : ∀ x ∈ ts, 10 < x - hb := fun x hx => hts x (List.mem_cons_of_mem t hx)
    have h1 := hco_flag_true_spec dev info (t - hb) t hflag
    simp only [runSweeps, evaluateDeviceStatus]
    rw [if_pos hoff]
    simp only [List.countP_append]
    rw [h1.2, ih _ _ htail h1.1]

lemma runSweeps_flag_false (latest : Option SensorSnap) (hb : Nat) (ts : List Nat) :
    ∀ (dev : Device) (info : OfflineInfo),
      (∀ t ∈ ts, 10 < t - hb) → info.failsafeActivated = false →
      ((runSweeps latest hb dev (some info) ts).2.2).countP isEmergencyEv
        = if ts.any (fun t => decide (60 < t - hb)) then 1 else 0 := by
  induction ts with
  | nil => intro dev info _ _; rfl
  | cons t ts ih =>
    intro dev info hts hflag
    have hoff : 10 < t - hb := hts t (List.mem_cons_self t ts)
    have htail : ∀ x ∈ ts, 10 < x - hb := fun x hx => hts x (List.mem_cons_of_mem t hx)
    simp only [runSweeps, evaluateDeviceStatus]
    rw [if_pos hoff]
    simp only [List.countP_append, List.any_cons]
    by_cases h60 : 60 < t - hb
    · have h1 := hco_fire dev info (t - hb) t h60 hflag
      rw [h1.2, runSweeps_flag_true latest hb ts _ _ htail h1.1]
      simp [h60]
    · have h1 := hco_low_spec dev info (t - hb) t h60
      rw [h1.2, ih _ _ htail (by rw [h1.1]; exact hflag)]
      simp [h60]

/-- C1: once a sweep observes more than 60 offline minutes on a tracked
episode whose `failsafeActivated` flag is still false, that sweep applies
the emergency failsafe exactly once and sets the flag; over any run of
sweeps of an uninterrupted offline episode (every sweep past the 10-minute
threshold) the emergency failsafe fires exactly once when some sweep is
past 60 minutes and zero times otherwise, and fires never when the flag is
already set. -/
theorem emergency_applied_once_per_episode (dev dev2 : Device)
    (info info2 : OfflineInfo) (latest : Option SensorSnap) (hb : Nat)
    (ts : List Nat) (m now : Nat)
    (hm : 60 < m) (hflag : info.failsafeActivated = false)
    (hflag2 : info2.failsafeActivated = true)
    (hts : ts.all (fun t => decide (10 < t - hb)) = true) :
    ((handleContinuedOffline dev info m now).2.1.failsafeActivated = true
      ∧ ((handleContinuedOffline dev info m now).2.2).countP isEmergencyEv = 1)
    ∧ ((runSweeps latest hb dev (some info) ts).2.2).countP isEmergencyEv
        = (if ts.any (fun t => decide (60 < t - hb)) then 1 else 0)
    ∧ ((runSweeps latest hb dev2 (some info2) ts).2.2).countP isEmergencyEv = 0 := by
  have hts' : ∀ t ∈ ts, 10 < t - hb := by
    intro t ht
    simpa using List.all_eq_true.mp hts t ht
  exact ⟨hco_fire dev info m now hm hflag,
         runSweeps_flag_false latest hb ts dev info hts' hflag,
         runSweeps_flag_true latest hb ts dev2 info2 hts' hflag2⟩

/-- Witness for the once-per-episode emergency claim at concrete inputs:
heartbeat stopped at time 0, sweeps at 15, 65, 70 and 75 minutes. -/
theorem emergency_applied_once_per_episode_witness :
    (60 < 65 ∧ infoF.failsafeActivated = false ∧ infoT.failsafeActivated = true
      ∧ ([15, 65, 70, 75].all (fun t => decide (10 < t - 0)) = true))
    ∧ (((handleContinuedOffline dev0 infoF 65 65).2.1.failsafeActivated = true
        ∧ ((handleContinuedOffline dev0 infoF 65 65).2.2).countP isEmergencyEv = 1)
      ∧ ((runSweeps none 0 dev0 (some infoF) [15, 65, 70, 75]).2.2).countP isEmergencyEv
          = (if [15, 65, 70, 75].any (fun t => decide (60 < t - 0)) then 1 else 0)
      ∧ ((runSweeps none 0 dev0 (some infoT) [15, 65, 70, 75]).2.2).countP
          isEmergencyEv = 0) :=
  ⟨⟨by decide, rfl, rfl, by decide⟩,
   emergency_applied_once_per_episode dev0 dev0 infoF infoT none 0
     [15, 65, 70, 75] 65 65 (by decide) rfl rfl (by decide)⟩

lemma emergencyStep_no_escalation (dev : Device) (info : OfflineInfo) (m now : Nat) :
    (emergencyStep dev info m now).2.2.filter isEscalationEv = [] := by
  rw [emergencyStep]
  split <;> rfl

/-- C9 counterexample: heartbeat stopped at time 0 and sweeps every 5
minutes at offline ages 12, 17, 22, 27 and 32 cross the 30-minute boundary
between the sweeps at 27 and 32, yet the modulo-30 check never matches, so
no escalation at all is emitted — in particular none at the first sweep at
or after 30 offline minutes, contradicting the claim. -/
theorem escalation_boundary_counterexample :
    ((runSweeps none 0 dev0 none [12, 17, 22, 27, 32]).2.2).countP isEscalationEv = 0
    ∧ ¬ (1 ≤ ((runSweeps none 0 dev0 none [12, 17, 22, 27, 32]).2.2).countP
          isEscalationEv) := by
  exact ⟨by decide, by decide⟩

/-- C9 amended: a continued-offline sweep emits an escalation exactly when
the observed offline minutes are an exact multiple of 30 and fewer than 5
notifications have been sent, with severity critical above 60 minutes and
high otherwise; when the sweeps happen to observe exact multiples of 5
offline minutes (heartbeat stopped at time 0, sweeps at 5, 10, ..., 30),
the first escalation fires at exactly 30 minutes with severity high. -/
theorem escalation_on_exact_half_hour (dev : Device) (info : OfflineInfo)
    (m now : Nat) :
    ((handleContinuedOffline dev info m now).2.2).filter isEscalationEv
      = (if m % 30 = 0 ∧ info.notificationsSent < 5
         then [FsEvent.offlineEscalation (if 60 < m then Severity.critical
                 else Severity.high) m]
         else [])
    ∧ ((runSweeps none 0 dev0 none [5, 10, 15, 20, 25, 30]).2.2).filter isEscalationEv
        = [FsEvent.offlineEscalation Severity.high 30] := by
  constructor
  · simp only [handleContinuedOffline]
    rw [List.filter_append, emergencyStep_no_escalation, List.append_nil,
      escalationStep_events]
    by_cases h : m % 30 = 0 ∧ info.notificationsSent < 5 <;> simp [h, isEscalationEv]
  · decide
